import Mathlib

/-!
# Verification of `src/backend/services/bond_pricer.py`

Shallow embedding of the DCF bond-pricing engine over exact rationals:
every IEEE-double value of the source is modelled as a `ℚ`, Python's
`round(x, k)` as round-half-up to `k` decimal places, and Python's
`int(x)` as truncation toward zero.  The one operation that has no exact
rational counterpart — the float power `(1 + ytm) ** maturity_years`
with a fractional exponent, used only in the zero-period (discount
instrument) branch — is modelled as an explicit function parameter
`fpow` that every statement quantifies over.
-/

namespace BondPricer

/-- Python `round(x, k)`: round to `k` decimal places (ties away from the
smaller value, i.e. half-up, in this exact-arithmetic model). -/
def roundTo (k : ℕ) (q : ℚ) : ℚ := (round (q * 10 ^ k) : ℚ) / 10 ^ k

/-- Python `int(x)`: truncation toward zero. -/
def intTrunc (q : ℚ) : ℤ := if 0 ≤ q then ⌊q⌋ else ⌈q⌉

/-- `n_periods = int(maturity_years * 2)` — the number of semi-annual
periods (`bond_pricer.py` line 24). -/
def n_periods (maturity_years : ℚ) : ℤ := intTrunc (maturity_years * 2)

/-- The output dict of `price_bond` (`bond_pricer.py` lines 31-41 and
68-78). -/
structure PricingResult where
  price : ℚ
  macaulay_duration : ℚ
  modified_duration : ℚ
  convexity : ℚ
  dv01 : ℚ
  current_yield : ℚ
  price_to_face : ℚ
  ytm_pct : ℚ
  coupon_pct : ℚ
  deriving DecidableEq, Repr

/-- `cash_flows` (`bond_pricer.py` lines 44-45): every period pays the
semi-annual coupon `face_value * coupon_rate / 2`; the final period `N`
additionally pays the principal `face_value`.  Periods are 1-indexed. -/
def cash_flows (face_value coupon_rate : ℚ) (N i : ℕ) : ℚ :=
  face_value * coupon_rate / 2 + if i = N then face_value else 0

/-- `pv_cash_flows` (`bond_pricer.py` lines 47-48): present value of the
period-`i` cash flow, discounted by `(1 + ytm/2) ^ i`. -/
def pv_cash_flows (face_value coupon_rate ytm : ℚ) (N i : ℕ) : ℚ :=
  cash_flows face_value coupon_rate N i / (1 + ytm / 2) ^ i

/-- `pv_cash_flows.sum()` (`bond_pricer.py` line 49): the DCF price of the
periodic branch. -/
def dcf_price (face_value coupon_rate ytm : ℚ) (N : ℕ) : ℚ :=
  ∑ i in Finset.Icc 1 N, pv_cash_flows face_value coupon_rate ytm N i

/-- `price_bond` (`bond_pricer.py` lines 11-78).  `fpow b e` models the
float power `b ** e` with fractional exponent `e`, which is used only in
the `n_periods == 0` branch.  For `n_periods < 0` the source raises
(`np.full` rejects a negative length); the claims below only concern
positive maturities, where this model and the source agree. -/
def price_bond (fpow : ℚ → ℚ → ℚ) (face_value coupon_rate ytm maturity_years : ℚ) :
    PricingResult :=
  if n_periods maturity_years = 0 then
    let price := face_value / fpow (1 + ytm) maturity_years
    { price := roundTo 4 price
      macaulay_duration := roundTo 4 maturity_years
      modified_duration := roundTo 4 (maturity_years / (1 + ytm))
      convexity := 0
      dv01 := roundTo 4 (price * maturity_years / (1 + ytm) / 10000)
      current_yield := 0
      price_to_face := roundTo 4 (price / face_value * 100)
      ytm_pct := roundTo 4 (ytm * 100)
      coupon_pct := roundTo 4 (coupon_rate * 100) }
  else
    let N := (n_periods maturity_years).toNat
    let price := dcf_price face_value coupon_rate ytm N
    let mac_duration :=
      (∑ i in Finset.Icc 1 N, pv_cash_flows face_value coupon_rate ytm N i * i) / price / 2
    let mod_duration := mac_duration / (1 + ytm / 2)
    let convexity :=
      (∑ i in Finset.Icc 1 N, pv_cash_flows face_value coupon_rate ytm N i * i * (i + 1)) /
        (price * (1 + ytm / 2) ^ 2 * 4)
    let dv01 := mod_duration * price / 10000
    let annual_coupon := face_value * coupon_rate
    let current_yield := if price > 0 then annual_coupon / price else 0
    { price := roundTo 4 price
      macaulay_duration := roundTo 4 mac_duration
      modified_duration := roundTo 4 mod_duration
      convexity := roundTo 4 convexity
      dv01 := roundTo 4 dv01
      current_yield := roundTo 4 (current_yield * 100)
      price_to_face := roundTo 4 (price / face_value * 100)
      ytm_pct := roundTo 4 (ytm * 100)
      coupon_pct := roundTo 4 (coupon_rate * 100) }

/-- One entry of the list returned by `stress_test_bond`
(`bond_pricer.py` lines 97-104). -/
structure StressScenario where
  shock_bps : ℤ
  shocked_ytm : ℚ
  price : ℚ
  pnl_per_bond : ℚ
  total_pnl : ℚ
  pnl_pct : ℚ
  deriving DecidableEq, Repr

/-- The canonical shock list (`bond_pricer.py` line 88). -/
def shocks : List ℤ := [-300, -200, -100, -50, 0, 50, 100, 200, 300]

/-- `stress_test_bond` (`bond_pricer.py` lines 81-106). -/
def stress_test_bond (fpow : ℚ → ℚ → ℚ)
    (face_value coupon_rate ytm maturity_years quantity : ℚ) : List StressScenario :=
  let base := price_bond fpow face_value coupon_rate ytm maturity_years
  shocks.map fun (shock_bps : ℤ) =>
    let shocked_ytm := max (1 / 10000) (ytm + (shock_bps : ℚ) / 10000)
    let shocked_price := price_bond fpow face_value coupon_rate shocked_ytm maturity_years
    let pnl_per_bond := shocked_price.price - base.price
    let total_pnl := pnl_per_bond * quantity
    { shock_bps := shock_bps
      shocked_ytm := roundTo 4 (shocked_ytm * 100)
      price := shocked_price.price
      pnl_per_bond := roundTo 4 pnl_per_bond
      total_pnl := roundTo 2 total_pnl
      pnl_pct := roundTo 4 (pnl_per_bond / base.price * 100) }

/-- A concrete instantiation of the abstract float power, for witnesses;
the zero-period branch is the only consumer of `fpow`, so any
instantiation is as good as any other there. -/
def fpow0 : ℚ → ℚ → ℚ := fun _ _ => 0

/-! ## Evaluation helpers -/

/-- Evaluate `⌊q⌋` from two rational inequalities that `norm_num` can
check on concrete inputs. -/
theorem floor_eval {q : ℚ} {n : ℤ} (h1 : (n : ℚ) ≤ q) (h2 : q < n + 1) :
    ⌊q⌋ = n := Int.floor_eq_iff.mpr ⟨h1, h2⟩

/-- Evaluate `roundTo k q` from two rational inequalities that `norm_num`
can check on concrete inputs. -/
theorem roundTo_eval (k : ℕ) (q : ℚ) (n : ℤ)
    (h1 : (n : ℚ) ≤ q * 10 ^ k + 1 / 2) (h2 : q * 10 ^ k + 1 / 2 < n + 1) :
    roundTo k q = (n : ℚ) / 10 ^ k := by
  unfold roundTo
  rw [round_eq, floor_eval h1 h2]

@[simp] theorem roundTo_zero (k : ℕ) : roundTo k 0 = 0 := by
  simp [roundTo]

/-- `roundTo` is monotone. -/
theorem roundTo_mono (k : ℕ) {a b : ℚ} (h : a ≤ b) : roundTo k a ≤ roundTo k b := by
  unfold roundTo
  have h10 : (0 : ℚ) < 10 ^ k := by positivity
  rw [div_le_div_iff_of_pos_right h10]
  rw [round_eq, round_eq]
  exact_mod_cast Int.floor_le_floor (by nlinarith)

theorem n_periods_eval {m : ℚ} {n : ℤ} (h0 : 0 ≤ m) (h1 : (n : ℚ) ≤ m * 2)
    (h2 : m * 2 < n + 1) : n_periods m = n := by
  unfold n_periods intTrunc
  rw [if_pos (by nlinarith), floor_eval h1 h2]

/-- In the periodic branch the `price` field is the rounded DCF sum. -/
theorem price_bond_price_periodic (fpow : ℚ → ℚ → ℚ) (fv c y m : ℚ)
    (h : n_periods m ≠ 0) :
    (price_bond fpow fv c y m).price =
      roundTo 4 (dcf_price fv c y (n_periods m).toNat) := by
  simp [price_bond, h]

/-- With a single semi-annual period the DCF price is one discounted
cash flow: coupon plus principal over `1 + ytm/2`. -/
theorem price_bond_price_of_one (fpow : ℚ → ℚ → ℚ) (fv c y m : ℚ)
    (hn : n_periods m = 1) :
    (price_bond fpow fv c y m).price =
      roundTo 4 ((fv * c / 2 + fv) / (1 + y / 2)) := by
  rw [price_bond_price_periodic fpow fv c y m (by rw [hn]; norm_num), hn]
  show roundTo 4 (dcf_price fv c y 1) = _
  unfold dcf_price
  rw [Finset.Icc_self, Finset.sum_singleton]
  unfold pv_cash_flows cash_flows
  norm_num

/-- The stress report always has nine entries. -/
theorem stress_test_bond_length (fpow : ℚ → ℚ → ℚ) (fv c y m q : ℚ) :
    (stress_test_bond fpow fv c y m q).length = 9 := by
  simp [stress_test_bond, shocks]

/-! ## Claims -/

/-- C1: for every BondSpec with `face_value > 0`, `coupon_rate ≥ 0`,
`ytm > -1`, `maturity_years > 0` and `n_periods = ⌊maturity_years * 2⌋ ≥ 1`,
`price_bond` returns price `= Σ_{i=1..n} CF_i / (1 + ytm/2)^i` rounded to
4 decimals, where `CF_i` is the semi-annual coupon
`face_value * coupon_rate / 2` plus, in the final period only, the
principal `face_value`. -/
theorem price_bond_periodic_dcf (fpow : ℚ → ℚ → ℚ) (fv c y m : ℚ)
    (hfv : 0 < fv) (hc : 0 ≤ c) (hy : -1 < y) (hm : 0 < m)
    (hN : 1 ≤ ⌊m * 2⌋) :
    (price_bond fpow fv c y m).price =
      roundTo 4 (∑ i in Finset.Icc 1 (⌊m * 2⌋).toNat,
        (fv * c / 2 + if i = (⌊m * 2⌋).toNat then fv else 0) / (1 + y / 2) ^ i) := by
  have hnp : n_periods m = ⌊m * 2⌋ := by
    unfold n_periods intTrunc
    rw [if_pos (by nlinarith)]
  have hne : n_periods m ≠ 0 := by rw [hnp]; omega
  rw [price_bond_price_periodic fpow fv c y m hne, hnp]
  unfold dcf_price pv_cash_flows cash_flows
  rfl

/-- Witness for C1: the 10-year 7.26% benchmark bond at 7.12% yield. -/
theorem price_bond_periodic_dcf_witness :
    (price_bond fpow0 1000 (726 / 10000) (712 / 10000) 10).price =
      roundTo 4 (∑ i in Finset.Icc 1 (⌊(10 : ℚ) * 2⌋).toNat,
        (1000 * (726 / 10000) / 2 + if i = (⌊(10 : ℚ) * 2⌋).toNat then 1000 else 0) /
          (1 + (712 / 10000) / 2) ^ i) :=
  price_bond_periodic_dcf fpow0 1000 (726 / 10000) (712 / 10000) 10
    (by norm_num) (by norm_num) (by norm_num) (by norm_num)
    (by rw [show ⌊(10 : ℚ) * 2⌋ = 20 from floor_eval (by norm_num) (by norm_num)]; norm_num)

/-- C2: for `0 < maturity_years < 0.5` (so `n_periods = 0`) `price_bond`
takes the discount-instrument branch: price `= face_value / (1+ytm)^maturity_years`
(the float power modelled by `fpow`), `macaulay_duration = maturity_years`,
`modified_duration = maturity_years / (1+ytm)`, `convexity = 0`,
`dv01 = price * maturity_years / (1+ytm) / 10000` and `current_yield = 0`,
each rounded field rounded to 4 decimals. -/
theorem price_bond_discount_branch (fpow : ℚ → ℚ → ℚ) (fv c y m : ℚ)
    (hm0 : 0 < m) (hm : m < 1 / 2) :
    (price_bond fpow fv c y m).price = roundTo 4 (fv / fpow (1 + y) m) ∧
    (price_bond fpow fv c y m).macaulay_duration = roundTo 4 m ∧
    (price_bond fpow fv c y m).modified_duration = roundTo 4 (m / (1 + y)) ∧
    (price_bond fpow fv c y m).convexity = 0 ∧
    (price_bond fpow fv c y m).dv01 =
      roundTo 4 (fv / fpow (1 + y) m * m / (1 + y) / 10000) ∧
    (price_bond fpow fv c y m).current_yield = 0 := by
  have h0 : n_periods m = 0 :=
    n_periods_eval hm0.le (by push_cast; nlinarith) (by push_cast; nlinarith)
  refine ⟨?_, ?_, ?_, ?_, ?_, ?_⟩ <;> simp [price_bond, h0]

/-- Witness for C2: the 91-day T-bill preset. -/
theorem price_bond_discount_branch_witness :
    (price_bond fpow0 1000 0 (685 / 10000) (1 / 4)).price =
      roundTo 4 (1000 / fpow0 (1 + 685 / 10000) (1 / 4)) ∧
    (price_bond fpow0 1000 0 (685 / 10000) (1 / 4)).macaulay_duration =
      roundTo 4 (1 / 4) ∧
    (price_bond fpow0 1000 0 (685 / 10000) (1 / 4)).modified_duration =
      roundTo 4 ((1 / 4) / (1 + 685 / 10000)) ∧
    (price_bond fpow0 1000 0 (685 / 10000) (1 / 4)).convexity = 0 ∧
    (price_bond fpow0 1000 0 (685 / 10000) (1 / 4)).dv01 =
      roundTo 4 (1000 / fpow0 (1 + 685 / 10000) (1 / 4) * (1 / 4) /
        (1 + 685 / 10000) / 10000) ∧
    (price_bond fpow0 1000 0 (685 / 10000) (1 / 4)).current_yield = 0 :=
  price_bond_discount_branch fpow0 1000 0 (685 / 10000) (1 / 4)
    (by norm_num) (by norm_num)

/-- C5 (evaluation at the failing input): the source performs none of the
validations the spec requires; at `face_value = -1000` (invalid:
`face_value ≤ 0`) it silently returns a complete `PricingResult` with
price `-1000` instead of failing with a `ValidationError`. -/
theorem price_bond_no_validation :
    (price_bond fpow0 (-1000) (1 / 20) (1 / 20) (1 / 2)).price = -1000 := by
  rw [price_bond_price_of_one fpow0 (-1000) (1 / 20) (1 / 20) (1 / 2)
    (n_periods_eval (by norm_num) (by norm_num) (by norm_num))]
  rw [show ((-1000 : ℚ) * (1 / 20) / 2 + -1000) / (1 + (1 / 20) / 2) = -1000 by norm_num]
  rw [roundTo_eval 4 (-1000) (-10000000) (by norm_num) (by norm_num)]
  norm_num

/-- C7: the stress report has exactly nine scenarios whose `shock_bps`
are `-300, -200, -100, -50, 0, 50, 100, 200, 300` in that order. -/
theorem stress_test_bond_shock_order (fpow : ℚ → ℚ → ℚ) (fv c y m q : ℚ) :
    (stress_test_bond fpow fv c y m q).length = 9 ∧
    (stress_test_bond fpow fv c y m q).map StressScenario.shock_bps =
      [-300, -200, -100, -50, 0, 50, 100, 200, 300] := by
  constructor <;> simp [stress_test_bond, shocks]

/-- C9: in the discount branch (`0 < maturity_years < 0.5`) the result
does not depend on `coupon_rate` in any field except `coupon_pct`. -/
theorem price_bond_discount_coupon_independent (fpow : ℚ → ℚ → ℚ)
    (fv c1 c2 y m : ℚ) (hc1 : 0 ≤ c1) (hc2 : 0 ≤ c2)
    (hm0 : 0 < m) (hm : m < 1 / 2) :
    (price_bond fpow fv c1 y m).price = (price_bond fpow fv c2 y m).price ∧
    (price_bond fpow fv c1 y m).macaulay_duration =
      (price_bond fpow fv c2 y m).macaulay_duration ∧
    (price_bond fpow fv c1 y m).modified_duration =
      (price_bond fpow fv c2 y m).modified_duration ∧
    (price_bond fpow fv c1 y m).convexity = (price_bond fpow fv c2 y m).convexity ∧
    (price_bond fpow fv c1 y m).dv01 = (price_bond fpow fv c2 y m).dv01 ∧
    (price_bond fpow fv c1 y m).current_yield =
      (price_bond fpow fv c2 y m).current_yield ∧
    (price_bond fpow fv c1 y m).price_to_face =
      (price_bond fpow fv c2 y m).price_to_face ∧
    (price_bond fpow fv c1 y m).ytm_pct = (price_bond fpow fv c2 y m).ytm_pct := by
  have h0 : n_periods m = 0 :=
    n_periods_eval hm0.le (by push_cast; nlinarith) (by push_cast; nlinarith)
  refine ⟨?_, ?_, ?_, ?_, ?_, ?_, ?_, ?_⟩ <;> simp [price_bond, h0]

/-- In the periodic branch the `macaulay_duration` field is the rounded
PV-weighted mean period count, halved to convert to years. -/
theorem price_bond_mac_periodic (fpow : ℚ → ℚ → ℚ) (fv c y m : ℚ)
    (h : n_periods m ≠ 0) :
    (price_bond fpow fv c y m).macaulay_duration =
      roundTo 4 ((∑ i in Finset.Icc 1 (n_periods m).toNat,
        pv_cash_flows fv c y (n_periods m).toNat i * i) /
        dcf_price fv c y (n_periods m).toNat / 2) := by
  simp [price_bond, h]

/-- Every cash flow is nonnegative when face value and coupon rate are. -/
theorem cash_flows_nonneg {fv c : ℚ} (hfv : 0 ≤ fv) (hc : 0 ≤ c) (N i : ℕ) :
    0 ≤ cash_flows fv c N i := by
  unfold cash_flows
  have h1 : 0 ≤ fv * c / 2 := by positivity
  split
  · linarith
  · linarith

/-- The raw DCF price is antitone in the yield (for a positive discount
base and nonnegative cash flows). -/
theorem dcf_price_anti {fv c : ℚ} (hfv : 0 ≤ fv) (hc : 0 ≤ c) (N : ℕ) {y1 y2 : ℚ}
    (h1 : 0 < 1 + y1 / 2) (h12 : y1 ≤ y2) :
    dcf_price fv c y2 N ≤ dcf_price fv c y1 N := by
  unfold dcf_price pv_cash_flows
  apply Finset.sum_le_sum
  intro i _
  exact div_le_div_of_nonneg_left (cash_flows_nonneg hfv hc N i) (pow_pos h1 i)
    (pow_le_pow_left₀ h1.le (by linarith) i)

/-- A zero-face-value half-year bond prices to 0 at every yield. -/
theorem price_bond_degenerate_price (y : ℚ) :
    (price_bond fpow0 0 0 y ((2 : ℚ)⁻¹)).price = 0 := by
  rw [price_bond_price_of_one fpow0 0 0 y ((2 : ℚ)⁻¹)
      (n_periods_eval (by norm_num) (by norm_num) (by norm_num))]
  rw [show ((0 * 0 / 2 + 0) / (1 + y / 2) : ℚ) = 0 by
    rw [show (0 * 0 / 2 + 0 : ℚ) = 0 by norm_num, zero_div]]
  exact roundTo_zero 4

/-- The fully evaluated `-300` bps scenario of the zero-face-value
half-year bond, for any quantity. -/
theorem degenerate_scenario_mem (q : ℚ) :
    (⟨-300, 2, 0, 0, 0, 0⟩ : StressScenario) ∈
      stress_test_bond fpow0 0 0 (1 / 20) (1 / 2) q := by
  simp only [stress_test_bond]
  refine List.mem_map.mpr ⟨-300, by simp [shocks], ?_⟩
  have hmax : (10000 : ℚ)⁻¹ ⊔ ((20 : ℚ)⁻¹ + -300 / 10000) = (50 : ℚ)⁻¹ := by
    rw [max_eq_right (by norm_num)]
    norm_num
  have h2 : roundTo 4 ((50 : ℚ)⁻¹ * 100) = 2 := by
    rw [show ((50 : ℚ)⁻¹ * 100) = 2 by norm_num,
      roundTo_eval 4 2 20000 (by norm_num) (by norm_num)]
    norm_num
  simp [hmax, h2, price_bond_degenerate_price]

theorem benchmark_n : n_periods ((2 : ℚ)⁻¹) = 1 :=
  n_periods_eval (by norm_num) (by norm_num) (by norm_num)

/-- Price of the half-year 5% bond repriced at the `-300` bps shocked
yield 2%. -/
theorem benchmark_price_50 :
    (price_bond fpow0 1000 ((20 : ℚ)⁻¹) ((50 : ℚ)⁻¹) ((2 : ℚ)⁻¹)).price =
      2029703 / 2000 := by
  rw [price_bond_price_of_one fpow0 1000 ((20 : ℚ)⁻¹) ((50 : ℚ)⁻¹) ((2 : ℚ)⁻¹) benchmark_n,
    show ((1000 * (20 : ℚ)⁻¹ / 2 + 1000) / (1 + (50 : ℚ)⁻¹ / 2) : ℚ) = 102500 / 101 by
      norm_num,
    roundTo_eval 4 (102500 / 101) 10148515 (by norm_num) (by norm_num)]
  norm_num

/-- Price of the half-year 5% bond repriced at the `-200` bps shocked
yield 3%. -/
theorem benchmark_price_3pc :
    (price_bond fpow0 1000 ((20 : ℚ)⁻¹) (3 / 100) ((2 : ℚ)⁻¹)).price =
      5049261 / 5000 := by
  rw [price_bond_price_of_one fpow0 1000 ((20 : ℚ)⁻¹) (3 / 100) ((2 : ℚ)⁻¹) benchmark_n,
    show ((1000 * (20 : ℚ)⁻¹ / 2 + 1000) / (1 + (3 / 100) / 2) : ℚ) = 205000 / 203 by
      norm_num,
    roundTo_eval 4 (205000 / 203) 10098522 (by norm_num) (by norm_num)]
  norm_num

/-- The half-year 5% bond at 5% yield prices at par. -/
theorem benchmark_price_base :
    (price_bond fpow0 1000 ((20 : ℚ)⁻¹) ((20 : ℚ)⁻¹) ((2 : ℚ)⁻¹)).price = 1000 := by
  rw [price_bond_price_of_one fpow0 1000 ((20 : ℚ)⁻¹) ((20 : ℚ)⁻¹) ((2 : ℚ)⁻¹) benchmark_n,
    show ((1000 * (20 : ℚ)⁻¹ / 2 + 1000) / (1 + (20 : ℚ)⁻¹ / 2) : ℚ) = 1000 by norm_num,
    roundTo_eval 4 1000 10000000 (by norm_num) (by norm_num)]
  norm_num

/-- The fully evaluated `-300` bps scenario of the half-year 5% bond. -/
theorem benchmark_s0_mem :
    (⟨-300, 2, 2029703 / 2000, 29703 / 2000, 297 / 20, 3713 / 2500⟩ : StressScenario) ∈
      stress_test_bond fpow0 1000 (1 / 20) (1 / 20) (1 / 2) 1 := by
  simp only [stress_test_bond]
  refine List.mem_map.mpr ⟨-300, by simp [shocks], ?_⟩
  have hmax3 : (10000 : ℚ)⁻¹ ⊔ ((20 : ℚ)⁻¹ + -300 / 10000) = (50 : ℚ)⁻¹ := by
    rw [max_eq_right (by norm_num)]
    norm_num
  have h2 : roundTo 4 ((50 : ℚ)⁻¹ * 100) = 2 := by
    rw [show ((50 : ℚ)⁻¹ * 100) = 2 by norm_num,
      roundTo_eval 4 2 20000 (by norm_num) (by norm_num)]
    norm_num
  have hpnl : roundTo 4 ((2029703 / 2000 : ℚ) - 1000) = 29703 / 2000 := by
    rw [show ((2029703 / 2000 : ℚ) - 1000) = 29703 / 2000 by norm_num,
      roundTo_eval 4 (29703 / 2000) 148515 (by norm_num) (by norm_num)]
    norm_num
  have htot : roundTo 2 ((2029703 / 2000 : ℚ) - 1000) = 297 / 20 := by
    rw [show ((2029703 / 2000 : ℚ) - 1000) = 29703 / 2000 by norm_num,
      roundTo_eval 2 (29703 / 2000) 1485 (by norm_num) (by norm_num)]
    norm_num
  have hpct : roundTo 4 (((2029703 / 2000 : ℚ) - 1000) / 1000 * 100) = 3713 / 2500 := by
    rw [show (((2029703 / 2000 : ℚ) - 1000) / 1000 * 100) = 29703 / 20000 by norm_num,
      roundTo_eval 4 (29703 / 20000) 14852 (by norm_num) (by norm_num)]
    norm_num
  simp [hmax3, h2, benchmark_price_50, benchmark_price_base, hpnl, htot, hpct]

/-- The fully evaluated `-200` bps scenario of the half-year 5% bond. -/
theorem benchmark_s1_mem :
    (⟨-200, 3, 5049261 / 5000, 49261 / 5000, 197 / 20, 2463 / 2500⟩ : StressScenario) ∈
      stress_test_bond fpow0 1000 (1 / 20) (1 / 20) (1 / 2) 1 := by
  simp only [stress_test_bond]
  refine List.mem_map.mpr ⟨-200, by simp [shocks], ?_⟩
  have hmax2 : (10000 : ℚ)⁻¹ ⊔ ((20 : ℚ)⁻¹ + -200 / 10000) = 3 / 100 := by
    rw [max_eq_right (by norm_num)]
    norm_num
  have h3 : roundTo 4 (3 : ℚ) = 3 := by
    rw [roundTo_eval 4 3 30000 (by norm_num) (by norm_num)]
    norm_num
  have hpnl : roundTo 4 ((5049261 / 5000 : ℚ) - 1000) = 49261 / 5000 := by
    rw [show ((5049261 / 5000 : ℚ) - 1000) = 49261 / 5000 by norm_num,
      roundTo_eval 4 (49261 / 5000) 98522 (by norm_num) (by norm_num)]
    norm_num
  have htot : roundTo 2 ((5049261 / 5000 : ℚ) - 1000) = 197 / 20 := by
    rw [show ((5049261 / 5000 : ℚ) - 1000) = 49261 / 5000 by norm_num,
      roundTo_eval 2 (49261 / 5000) 985 (by norm_num) (by norm_num)]
    norm_num
  have hpct : roundTo 4 (((5049261 / 5000 : ℚ) - 1000) / 1000 * 100) = 2463 / 2500 := by
    rw [show (((5049261 / 5000 : ℚ) - 1000) / 1000 * 100) = 49261 / 50000 by norm_num,
      roundTo_eval 4 (49261 / 50000) 9852 (by norm_num) (by norm_num)]
    norm_num
  simp [hmax2, h3, benchmark_price_3pc, benchmark_price_base, hpnl, htot, hpct]

/-- Witness for C9: a zero-coupon and a 10% coupon 3-month bill price
identically in every field but `coupon_pct`. -/
theorem price_bond_discount_coupon_independent_witness :
    (price_bond fpow0 1000 0 (685 / 10000) (1 / 4)).price =
      (price_bond fpow0 1000 (1 / 10) (685 / 10000) (1 / 4)).price ∧
    (price_bond fpow0 1000 0 (685 / 10000) (1 / 4)).macaulay_duration =
      (price_bond fpow0 1000 (1 / 10) (685 / 10000) (1 / 4)).macaulay_duration ∧
    (price_bond fpow0 1000 0 (685 / 10000) (1 / 4)).modified_duration =
      (price_bond fpow0 1000 (1 / 10) (685 / 10000) (1 / 4)).modified_duration ∧
    (price_bond fpow0 1000 0 (685 / 10000) (1 / 4)).convexity =
      (price_bond fpow0 1000 (1 / 10) (685 / 10000) (1 / 4)).convexity ∧
    (price_bond fpow0 1000 0 (685 / 10000) (1 / 4)).dv01 =
      (price_bond fpow0 1000 (1 / 10) (685 / 10000) (1 / 4)).dv01 ∧
    (price_bond fpow0 1000 0 (685 / 10000) (1 / 4)).current_yield =
      (price_bond fpow0 1000 (1 / 10) (685 / 10000) (1 / 4)).current_yield ∧
    (price_bond fpow0 1000 0 (685 / 10000) (1 / 4)).price_to_face =
      (price_bond fpow0 1000 (1 / 10) (685 / 10000) (1 / 4)).price_to_face ∧
    (price_bond fpow0 1000 0 (685 / 10000) (1 / 4)).ytm_pct =
      (price_bond fpow0 1000 (1 / 10) (685 / 10000) (1 / 4)).ytm_pct :=
  price_bond_discount_coupon_independent fpow0 1000 0 (1 / 10) (685 / 10000) (1 / 4)
    (by norm_num) (by norm_num) (by norm_num) (by norm_num)

/-- C3 counterexample: at `ytm = 0` (valid: `ytm > -1`) the shock = 0
scenario does NOT reproduce the base price: the stress loop floors the
shocked yield at `0.0001 > 0`, so the `shock_bps = 0` scenario of the
half-year 5% bond has `pnl_per_bond = -0.0512 ≠ 0`. -/
theorem stress_shock_zero_cex :
    ((stress_test_bond fpow0 1000 (1 / 20) 0 (1 / 2) 1).map
        (fun s => (s.shock_bps, s.pnl_per_bond)))[4]? =
      some ((0 : ℤ), (-32 / 625 : ℚ)) ∧ (-32 / 625 : ℚ) ≠ 0 := by
  refine ⟨?_, by norm_num⟩
  have hn : n_periods ((2 : ℚ)⁻¹) = 1 :=
    n_periods_eval (by norm_num) (by norm_num) (by norm_num)
  have hbase : (price_bond fpow0 1000 ((20 : ℚ)⁻¹) 0 ((2 : ℚ)⁻¹)).price = 1025 := by
    rw [price_bond_price_of_one fpow0 1000 ((20 : ℚ)⁻¹) 0 ((2 : ℚ)⁻¹) hn,
      show ((1000 * (20 : ℚ)⁻¹ / 2 + 1000) / (1 + 0 / 2) : ℚ) = 1025 by norm_num,
      roundTo_eval 4 1025 10250000 (by norm_num) (by norm_num)]
    norm_num
  have hsh : (price_bond fpow0 1000 ((20 : ℚ)⁻¹) ((10000 : ℚ)⁻¹) ((2 : ℚ)⁻¹)).price =
      640593 / 625 := by
    rw [price_bond_price_of_one fpow0 1000 ((20 : ℚ)⁻¹) ((10000 : ℚ)⁻¹) ((2 : ℚ)⁻¹) hn,
      show ((1000 * (20 : ℚ)⁻¹ / 2 + 1000) / (1 + (10000 : ℚ)⁻¹ / 2) : ℚ) =
        20500000 / 20001 by norm_num,
      roundTo_eval 4 (20500000 / 20001) 10249488 (by norm_num) (by norm_num)]
    norm_num
  have hmax0 : (10000 : ℚ)⁻¹ ⊔ 0 = (10000 : ℚ)⁻¹ := max_eq_left (by norm_num)
  simp [stress_test_bond, shocks, hmax0, hsh, hbase]
  rw [show (640593 / 625 - 1025 : ℚ) = -32 / 625 by norm_num,
    roundTo_eval 4 (-32 / 625) (-512) (by norm_num) (by norm_num)]
  norm_num

/-- C3 (amended): whenever the base `ytm` is at or above the stress floor
`0.0001`, the shock = 0 scenario (index 4 of the report) reuses the exact
base price and has `pnl_per_bond = 0`, `total_pnl = 0` and `pnl_pct = 0`.
(The claim as stated fails for `0 < ytm < 0.0001`, where the floor makes
the "unshocked" yield differ from the base yield — see the
counterexample.) -/
theorem stress_shock_zero_reuses_base (fpow : ℚ → ℚ → ℚ) (fv c y m q : ℚ)
    (hy : 1 / 10000 ≤ y) :
    (stress_test_bond fpow fv c y m q)[4]? =
      some { shock_bps := 0, shocked_ytm := roundTo 4 (y * 100),
             price := (price_bond fpow fv c y m).price,
             pnl_per_bond := 0, total_pnl := 0, pnl_pct := 0 } := by
  have hy' : (10000⁻¹ : ℚ) ≤ y := by rwa [← one_div]
  simp [stress_test_bond, shocks, max_eq_right hy', sub_self]

/-- Witness for C3 (amended): the half-year 5% bond at 5% yield. -/
theorem stress_shock_zero_reuses_base_witness :
    (stress_test_bond fpow0 1000 (1 / 20) (1 / 20) 1 1)[4]? =
      some { shock_bps := 0, shocked_ytm := roundTo 4 ((1 / 20) * 100),
             price := (price_bond fpow0 1000 (1 / 20) (1 / 20) 1).price,
             pnl_per_bond := 0, total_pnl := 0, pnl_pct := 0 } :=
  stress_shock_zero_reuses_base fpow0 1000 (1 / 20) (1 / 20) 1 1 (by norm_num)

/-- C4: every scenario of the stress report reprices at the shocked yield
`max(0.0001, ytm + shock_bps/10000)`, which is always at least `0.0001`;
and in particular for `ytm = 0.0050`, `shock_bps = -300` that shocked
yield is exactly `0.0001`. -/
theorem stress_shocked_ytm_floor (fpow : ℚ → ℚ → ℚ) (fv c y m q : ℚ)
    (s : StressScenario) (hs : s ∈ stress_test_bond fpow fv c y m q) :
    (∃ b ∈ shocks,
        s.shock_bps = b ∧
        s.shocked_ytm = roundTo 4 (max (1 / 10000) (y + (b : ℚ) / 10000) * 100) ∧
        s.price =
          (price_bond fpow fv c (max (1 / 10000) (y + (b : ℚ) / 10000)) m).price ∧
        1 / 10000 ≤ max (1 / 10000 : ℚ) (y + (b : ℚ) / 10000)) ∧
    max (1 / 10000 : ℚ) (1 / 200 + ((-300 : ℤ) : ℚ) / 10000) = 1 / 10000 := by
  constructor
  · simp only [stress_test_bond, List.mem_map] at hs
    obtain ⟨b, hb, rfl⟩ := hs
    exact ⟨b, hb, rfl, rfl, rfl, le_max_left _ _⟩
  · rw [max_eq_left (by push_cast; norm_num)]

/-- Witness for C4: the `-300` bps scenario of the zero-face-value
half-year bond. -/
theorem stress_shocked_ytm_floor_witness :
    (∃ b ∈ shocks,
        (⟨-300, 2, 0, 0, 0, 0⟩ : StressScenario).shock_bps = b ∧
        (⟨-300, 2, 0, 0, 0, 0⟩ : StressScenario).shocked_ytm =
          roundTo 4 (max (1 / 10000) (1 / 20 + (b : ℚ) / 10000) * 100) ∧
        (⟨-300, 2, 0, 0, 0, 0⟩ : StressScenario).price =
          (price_bond fpow0 0 0 (max (1 / 10000) (1 / 20 + (b : ℚ) / 10000)) (1 / 2)).price ∧
        1 / 10000 ≤ max (1 / 10000 : ℚ) (1 / 20 + (b : ℚ) / 10000)) ∧
    max (1 / 10000 : ℚ) (1 / 200 + ((-300 : ℤ) : ℚ) / 10000) = 1 / 10000 :=
  stress_shocked_ytm_floor fpow0 0 0 (1 / 20) (1 / 2) 0 ⟨-300, 2, 0, 0, 0, 0⟩
    (degenerate_scenario_mem 0)

/-- C6 counterexample: strict price decrease fails after 4-decimal
rounding.  For the half-year zero-coupon bond with `face_value = 0.0001`
(positive face value, zero coupon, positive Macaulay duration 0.5), the
`-300` bps scenario (shocked yield 2%) and the 0 bps scenario (shocked
yield 5%) both carry the rounded price `0.0001`, so the lower-yield
scenario's price is not strictly greater. -/
theorem stress_strict_monotonicity_cex :
    ((stress_test_bond fpow0 (1 / 10000) 0 (1 / 20) (1 / 2) 1).map
        (fun s => (s.shocked_ytm, s.price)))[0]? = some ((2 : ℚ), (1 / 10000 : ℚ)) ∧
    ((stress_test_bond fpow0 (1 / 10000) 0 (1 / 20) (1 / 2) 1).map
        (fun s => (s.shocked_ytm, s.price)))[4]? = some ((5 : ℚ), (1 / 10000 : ℚ)) ∧
    (price_bond fpow0 (1 / 10000) 0 (1 / 20) (1 / 2)).macaulay_duration = 1 / 2 ∧
    (2 : ℚ) < 5 ∧ ¬ ((1 / 10000 : ℚ) > (1 / 10000 : ℚ)) := by
  have hn : n_periods ((2 : ℚ)⁻¹) = 1 :=
    n_periods_eval (by norm_num) (by norm_num) (by norm_num)
  have hp50 : (price_bond fpow0 ((10000 : ℚ)⁻¹) 0 ((50 : ℚ)⁻¹) ((2 : ℚ)⁻¹)).price =
      1 / 10000 := by
    rw [price_bond_price_of_one fpow0 ((10000 : ℚ)⁻¹) 0 ((50 : ℚ)⁻¹) ((2 : ℚ)⁻¹) hn,
      show (((10000 : ℚ)⁻¹ * 0 / 2 + (10000 : ℚ)⁻¹) / (1 + (50 : ℚ)⁻¹ / 2) : ℚ) =
        1 / 10100 by norm_num,
      roundTo_eval 4 (1 / 10100) 1 (by norm_num) (by norm_num)]
    norm_num
  have hp20 : (price_bond fpow0 ((10000 : ℚ)⁻¹) 0 ((20 : ℚ)⁻¹) ((2 : ℚ)⁻¹)).price =
      1 / 10000 := by
    rw [price_bond_price_of_one fpow0 ((10000 : ℚ)⁻¹) 0 ((20 : ℚ)⁻¹) ((2 : ℚ)⁻¹) hn,
      show (((10000 : ℚ)⁻¹ * 0 / 2 + (10000 : ℚ)⁻¹) / (1 + (20 : ℚ)⁻¹ / 2) : ℚ) =
        1 / 10250 by norm_num,
      roundTo_eval 4 (1 / 10250) 1 (by norm_num) (by norm_num)]
    norm_num
  have hmax3 : (10000 : ℚ)⁻¹ ⊔ ((20 : ℚ)⁻¹ + -300 / 10000) = (50 : ℚ)⁻¹ := by
    rw [max_eq_right (by norm_num)]
    norm_num
  have hmax0 : (10000 : ℚ)⁻¹ ⊔ (20 : ℚ)⁻¹ = (20 : ℚ)⁻¹ := max_eq_right (by norm_num)
  have h2 : roundTo 4 ((50 : ℚ)⁻¹ * 100) = 2 := by
    rw [show ((50 : ℚ)⁻¹ * 100) = 2 by norm_num,
      roundTo_eval 4 2 20000 (by norm_num) (by norm_num)]
    norm_num
  have h5 : roundTo 4 ((20 : ℚ)⁻¹ * 100) = 5 := by
    rw [show ((20 : ℚ)⁻¹ * 100) = 5 by norm_num,
      roundTo_eval 4 5 50000 (by norm_num) (by norm_num)]
    norm_num
  refine ⟨?_, ?_, ?_, by norm_num, by norm_num⟩
  · simp [stress_test_bond, shocks, hmax3, hp50, h2]
  · simp [stress_test_bond, shocks, hmax0, hp20, h5]
  · rw [show (1 / 10000 : ℚ) = (10000 : ℚ)⁻¹ from one_div _,
      show (1 / 20 : ℚ) = (20 : ℚ)⁻¹ from one_div _,
      show (1 / 2 : ℚ) = (2 : ℚ)⁻¹ from one_div _]
    rw [price_bond_mac_periodic fpow0 ((10000 : ℚ)⁻¹) 0 ((20 : ℚ)⁻¹) ((2 : ℚ)⁻¹)
      (by rw [hn]; norm_num), hn]
    show roundTo 4 ((∑ i in Finset.Icc 1 1,
        pv_cash_flows ((10000 : ℚ)⁻¹) 0 ((20 : ℚ)⁻¹) 1 i * i) /
        dcf_price ((10000 : ℚ)⁻¹) 0 ((20 : ℚ)⁻¹) 1 / 2) = (2 : ℚ)⁻¹
    unfold dcf_price
    rw [Finset.Icc_self, Finset.sum_singleton, Finset.sum_singleton,
      show pv_cash_flows ((10000 : ℚ)⁻¹) 0 ((20 : ℚ)⁻¹) 1 1 = 1 / 10250 by
        unfold pv_cash_flows cash_flows
        norm_num]
    rw [show ((1 / 10250 * ((1 : ℕ) : ℚ)) / (1 / 10250) / 2 : ℚ) = 1 / 2 by norm_num,
      roundTo_eval 4 (1 / 2) 5000 (by norm_num) (by norm_num)]
    norm_num

/-- C6 (amended): for a periodic-branch bond with `face_value > 0` and
`coupon_rate ≥ 0`, the reported (4-decimal-rounded) price is weakly
decreasing in the scenario's shocked yield: a scenario with strictly
smaller `shocked_ytm` has a price at least as large.  (Strict decrease —
the claim as stated — fails because distinct raw prices can round to the
same 4-decimal value; see the counterexample.) -/
theorem stress_price_antitone_in_yield (fpow : ℚ → ℚ → ℚ) (fv c y m q : ℚ)
    (hfv : 0 < fv) (hc : 0 ≤ c) (hN : 1 ≤ n_periods m)
    (s1 : StressScenario) (hs1 : s1 ∈ stress_test_bond fpow fv c y m q)
    (s2 : StressScenario) (hs2 : s2 ∈ stress_test_bond fpow fv c y m q)
    (hlt : s1.shocked_ytm < s2.shocked_ytm) : s2.price ≤ s1.price := by
  simp only [stress_test_bond, List.mem_map] at hs1 hs2
  obtain ⟨b1, hb1, rfl⟩ := hs1
  obtain ⟨b2, hb2, rfl⟩ := hs2
  have hlt' : roundTo 4 (max (1 / 10000) (y + (b1 : ℚ) / 10000) * 100) <
      roundTo 4 (max (1 / 10000) (y + (b2 : ℚ) / 10000) * 100) := hlt
  have hv : max (1 / 10000 : ℚ) (y + (b1 : ℚ) / 10000) ≤
      max (1 / 10000 : ℚ) (y + (b2 : ℚ) / 10000) := by
    by_contra hcon
    push_neg at hcon
    exact absurd hlt'
      (not_lt.mpr (roundTo_mono 4
        (mul_le_mul_of_nonneg_right hcon.le (by norm_num : (0 : ℚ) ≤ 100))))
  have hne : n_periods m ≠ 0 := by omega
  show (price_bond fpow fv c (max (1 / 10000) (y + (b2 : ℚ) / 10000)) m).price ≤
    (price_bond fpow fv c (max (1 / 10000) (y + (b1 : ℚ) / 10000)) m).price
  rw [price_bond_price_periodic fpow fv c (max (1 / 10000) (y + (b2 : ℚ) / 10000)) m hne,
    price_bond_price_periodic fpow fv c (max (1 / 10000) (y + (b1 : ℚ) / 10000)) m hne]
  apply roundTo_mono
  refine dcf_price_anti hfv.le hc _ ?_ hv
  have := le_max_left (1 / 10000 : ℚ) (y + (b1 : ℚ) / 10000)
  linarith

/-- Witness for C6 (amended): in the half-year 5% bond's report, the
`-200` bps scenario (shocked yield 3%) prices no higher than the `-300`
bps scenario (shocked yield 2%). -/
theorem stress_price_antitone_in_yield_witness :
    ((⟨-200, 3, 5049261 / 5000, 49261 / 5000, 197 / 20, 2463 / 2500⟩ :
        StressScenario)).price ≤
    ((⟨-300, 2, 2029703 / 2000, 29703 / 2000, 297 / 20, 3713 / 2500⟩ :
        StressScenario)).price :=
  stress_price_antitone_in_yield fpow0 1000 (1 / 20) (1 / 20) (1 / 2) 1
    (by norm_num) (by norm_num)
    (by rw [show n_periods (1 / 2 : ℚ) = 1 from
          n_periods_eval (by norm_num) (by norm_num) (by norm_num)])
    ⟨-300, 2, 2029703 / 2000, 29703 / 2000, 297 / 20, 3713 / 2500⟩ benchmark_s0_mem
    ⟨-200, 3, 5049261 / 5000, 49261 / 5000, 197 / 20, 2463 / 2500⟩ benchmark_s1_mem
    (by norm_num)

/-- C8 (evaluation at the failing input): `current_yield` is guarded
(`price > 0` check), but `pnl_pct` is not — `stress_test_bond` divides by
the rounded base price unconditionally.  For
`face_value = 0.000051, coupon_rate = 0, ytm = 5%, maturity = 0.5` the
base price rounds to `0.0000` while the `-300` bps scenario still has
`pnl_per_bond = 0.0001`, so the source computes `0.0001 / 0.0` (a NaN/inf
or fault; in this total model the division-by-zero convention makes it
`0`). -/
theorem stress_pnl_pct_unguarded :
    (price_bond fpow0 (51 / 1000000) 0 (1 / 20) (1 / 2)).price = 0 ∧
    ((stress_test_bond fpow0 (51 / 1000000) 0 (1 / 20) (1 / 2) 1).map
        (fun s => (s.shock_bps, s.pnl_per_bond)))[0]? =
      some ((-300 : ℤ), (1 / 10000 : ℚ)) := by
  have hn : n_periods ((2 : ℚ)⁻¹) = 1 :=
    n_periods_eval (by norm_num) (by norm_num) (by norm_num)
  have hbase : (price_bond fpow0 (51 / 1000000) 0 ((20 : ℚ)⁻¹) ((2 : ℚ)⁻¹)).price = 0 := by
    rw [price_bond_price_of_one fpow0 (51 / 1000000) 0 ((20 : ℚ)⁻¹) ((2 : ℚ)⁻¹) hn,
      show ((51 / 1000000 * 0 / 2 + 51 / 1000000) / (1 + (20 : ℚ)⁻¹ / 2) : ℚ) =
        51 / 1025000 by norm_num,
      roundTo_eval 4 (51 / 1025000) 0 (by norm_num) (by norm_num)]
    norm_num
  have hsh : (price_bond fpow0 (51 / 1000000) 0 ((50 : ℚ)⁻¹) ((2 : ℚ)⁻¹)).price =
      1 / 10000 := by
    rw [price_bond_price_of_one fpow0 (51 / 1000000) 0 ((50 : ℚ)⁻¹) ((2 : ℚ)⁻¹) hn,
      show ((51 / 1000000 * 0 / 2 + 51 / 1000000) / (1 + (50 : ℚ)⁻¹ / 2) : ℚ) =
        51 / 1010000 by norm_num,
      roundTo_eval 4 (51 / 1010000) 1 (by norm_num) (by norm_num)]
    norm_num
  have hmax : (10000 : ℚ)⁻¹ ⊔ ((20 : ℚ)⁻¹ + -300 / 10000) = (50 : ℚ)⁻¹ := by
    rw [max_eq_right (by norm_num)]
    norm_num
  constructor
  · rw [show (1 / 20 : ℚ) = (20 : ℚ)⁻¹ from one_div 20,
      show (1 / 2 : ℚ) = (2 : ℚ)⁻¹ from one_div 2]
    exact hbase
  · simp [stress_test_bond, shocks, hmax, hsh, hbase]
    rw [roundTo_eval 4 ((10000 : ℚ)⁻¹) 1 (by norm_num) (by norm_num)]
    norm_num

/-- C10: every P&L figure of a stress scenario derives from the rounded
prices: `pnl_per_bond` is the difference of the rounded shocked price
(the scenario's `price` field) and the rounded base price, re-rounded to
4 decimals; `total_pnl` is that difference times quantity rounded to 2
decimals; `pnl_pct` is that difference over the rounded base price times
100, rounded to 4 decimals. -/
theorem stress_pnl_from_rounded_prices (fpow : ℚ → ℚ → ℚ) (fv c y m q : ℚ)
    (s : StressScenario) (hs : s ∈ stress_test_bond fpow fv c y m q) :
    s.pnl_per_bond = roundTo 4 (s.price - (price_bond fpow fv c y m).price) ∧
    s.total_pnl =
      roundTo 2 ((s.price - (price_bond fpow fv c y m).price) * q) ∧
    s.pnl_pct =
      roundTo 4 ((s.price - (price_bond fpow fv c y m).price) /
        (price_bond fpow fv c y m).price * 100) := by
  simp only [stress_test_bond, List.mem_map] at hs
  obtain ⟨b, hb, rfl⟩ := hs
  exact ⟨rfl, rfl, rfl⟩

/-- Witness for C10: the `-300` bps scenario of the zero-face-value
half-year bond with quantity 1. -/
theorem stress_pnl_from_rounded_prices_witness :
    (⟨-300, 2, 0, 0, 0, 0⟩ : StressScenario).pnl_per_bond =
      roundTo 4 ((⟨-300, 2, 0, 0, 0, 0⟩ : StressScenario).price -
        (price_bond fpow0 0 0 (1 / 20) (1 / 2)).price) ∧
    (⟨-300, 2, 0, 0, 0, 0⟩ : StressScenario).total_pnl =
      roundTo 2 (((⟨-300, 2, 0, 0, 0, 0⟩ : StressScenario).price -
        (price_bond fpow0 0 0 (1 / 20) (1 / 2)).price) * 1) ∧
    (⟨-300, 2, 0, 0, 0, 0⟩ : StressScenario).pnl_pct =
      roundTo 4 (((⟨-300, 2, 0, 0, 0, 0⟩ : StressScenario).price -
        (price_bond fpow0 0 0 (1 / 20) (1 / 2)).price) /
        (price_bond fpow0 0 0 (1 / 20) (1 / 2)).price * 100) :=
  stress_pnl_from_rounded_prices fpow0 0 0 (1 / 20) (1 / 2) 1 ⟨-300, 2, 0, 0, 0, 0⟩
    (degenerate_scenario_mem 1)

end BondPricer
